import Mathlib

/-!
Formal model of the Telegram media downloader bot (`src/main.py`).

The development shallowly embeds the orchestration layer of `main.py`:

* the fields of a fetched message that `main.py` consults (`ChatMessage`),
* the file-size computation and size-guard consultation (lines 59-69),
* the content classification implicit in the branch structure of
  `download_media_from_url` (lines 76-111) and the `media_type` chain
  (lines 95-100),
* the effect trace of one run of `download_media_from_url`, with the
  `try/except` boundary (lines 54-117); external calls that can raise are
  driven by an environment `FetchEnv` recording their outcomes,
* the progress callback arithmetic and its emission condition (lines 36-49),
  over `ℚ` (Python floats are modelled as exact rationals; every fact proved
  is about the branch structure, not about rounding),
* the batch controller's window partition and counting (lines 187-223) and
  its launch/settle event trace,
* the `RUNNING_TASKS` registry maintained by `track_task` (lines 28-34).

Replies sent by the bot (`message.reply`, including the ones inside the
`except` handlers) are modelled as effects that do not themselves fail;
cooperative task cancellation (`asyncio.CancelledError`, which is not an
`Exception` in Python) is outside the modelled exception type.
-/

/-- Fields of a fetched Telegram message that `main.py` consults.
`photo`, `video`, `audio`, `document` carry the payload's `file_size`
when that media kind is present.  `otherMedia` stands for any further
pyrogram media kind (animation, voice, sticker, ...) that makes
`chat_message.media` truthy but is not special-cased by the code.
`text` and `caption` use `""` for Python-falsy (absent or empty). -/
structure ChatMessage where
  mediaGroupId : Option Nat
  photo : Option Nat
  video : Option Nat
  audio : Option Nat
  document : Option Nat
  otherMedia : Bool
  text : String
  caption : String

/-- Truthiness of `chat_message.media` (line 82): some media payload is
present. -/
def ChatMessage.media (m : ChatMessage) : Bool :=
  m.photo.isSome || m.video.isSome || m.audio.isSome || m.document.isSome || m.otherMedia

/-- The `file_size` computation of lines 60-66: `document`, else `video`,
else `audio`, else `0`.  A photo's size is never consulted. -/
def computedFileSize (m : ChatMessage) : Nat :=
  match m.document with
  | some s => s
  | none =>
    match m.video with
    | some s => s
    | none =>
      match m.audio with
      | some s => s
      | none => 0

/-- Content classes of the spec's classifier (§4.3). -/
inductive ContentClass where
  | photo
  | video
  | audio
  | document
  | groupedMedia
  | textOnly
  | empty
deriving DecidableEq, Repr

/-- The `media_type` chain of lines 95-100: photo, else video, else audio,
else document. -/
def mediaTypeOf (m : ChatMessage) : ContentClass :=
  if m.photo.isSome then .photo
  else if m.video.isSome then .video
  else if m.audio.isSome then .audio
  else .document

/-- Content classification as the branch structure of
`download_media_from_url` realises it: grouped-media membership first
(line 76), then the media branch with the `media_type` chain (lines 82,
95-100), then the text/caption branch (line 108), else the empty reply
(line 110). -/
def classify (m : ChatMessage) : ContentClass :=
  if m.mediaGroupId.isSome then .groupedMedia
  else if m.media then mediaTypeOf m
  else if m.text ≠ "" || m.caption ≠ "" then .textOnly
  else .empty

/-- Exceptions that can cross the `try` boundary of
`download_media_from_url`.  `peerIdInvalid` and `badRequest` are the two
types named by the first `except` clause (line 113); `other` covers every
remaining `Exception` subclass (line 115). -/
inductive Exc where
  | peerIdInvalid
  | badRequest
  | other (msg : String)
deriving DecidableEq, Repr

/-- Observable effects of one run of `download_media_from_url`, in program
order.  `sendMediaCall` records the `media_type` passed to `send_media`
(line 101). -/
inductive Effect where
  | sizeGuardCall
  | processGroup
  | replyGroupFail
  | progressReply
  | downloadCall
  | sendMediaCall (t : ContentClass)
  | cleanupDownload
  | deleteProgress
  | replyText
  | replyNoContent
  | replyAccess
  | replyError
deriving DecidableEq, Repr

/-- Environment driving one run of `download_media_from_url`: the results
of the external calls that can raise or branch.  `guard` is
`fileSizeLimit` (true = within limit, operation permitted); `premium` is
`user.me.is_premium`; `groupOk` is the return value of
`processMediaGroup`; `downloadResult`/`sendResult` are `none` on success
and `some e` when the call raises `e`. -/
structure FetchEnv where
  parse : Except Exc (Nat × Nat)
  getMessages : Except Exc ChatMessage
  guard : Nat → Bool → Bool
  premium : Bool
  groupOk : Bool
  downloadResult : Option Exc
  sendResult : Option Exc

/-- Effect trace of lines 71-111, after the message has been fetched and
the size check passed or been skipped. -/
def afterSizeCheck (env : FetchEnv) (m : ChatMessage) : List Effect × Option Exc :=
  if m.mediaGroupId.isSome then
    if env.groupOk then ([.processGroup], none)
    else ([.processGroup, .replyGroupFail], none)
  else if m.media then
    match env.downloadResult with
    | some e => ([.progressReply, .downloadCall], some e)
    | none =>
      match env.sendResult with
      | some e => ([.progressReply, .downloadCall, .sendMediaCall (mediaTypeOf m)], some e)
      | none =>
        ([.progressReply, .downloadCall, .sendMediaCall (mediaTypeOf m),
          .cleanupDownload, .deleteProgress], none)
  else if m.text ≠ "" || m.caption ≠ "" then ([.replyText], none)
  else ([.replyNoContent], none)

/-- Effect trace of the `try` block (lines 54-111).  The size guard is
consulted exactly when the computed file size is truthy (nonzero, line
68); on rejection the function returns without transferring bytes. -/
def downloadBody (env : FetchEnv) : List Effect × Option Exc :=
  match env.parse with
  | .error e => ([], some e)
  | .ok _ =>
    match env.getMessages with
    | .error e => ([], some e)
    | .ok m =>
      let fs := computedFileSize m
      if fs ≠ 0 then
        if env.guard fs env.premium then
          let r := afterSizeCheck env m
          (.sizeGuardCall :: r.1, r.2)
        else ([.sizeGuardCall], none)
      else afterSizeCheck env m

/-- The whole of `download_media_from_url` (lines 51-117): the `try` block
wrapped in the two `except` clauses.  `(PeerIdInvalid, BadRequest)` get
the access hint (line 114); every other `Exception` is logged and turned
into an error reply (lines 115-117).  The second component is the
exception escaping to the caller, `none` when the call returns
normally. -/
def download_media_from_url (env : FetchEnv) : List Effect × Option Exc :=
  match downloadBody env with
  | (tr, none) => (tr, none)
  | (tr, some .peerIdInvalid) => (tr ++ [.replyAccess], none)
  | (tr, some .badRequest) => (tr ++ [.replyAccess], none)
  | (tr, some (.other _)) => (tr ++ [.replyError], none)

/-- Emission condition of `progress_callback` (lines 38-39): an update is
emitted iff at least 10 seconds have elapsed since `start_time` — the
fixed transfer start, which the code never advances. -/
def progressEmits (startTime now : ℚ) : Bool :=
  decide (now - startTime ≥ 10)

/-- Invocation times of the progress callback during one transfer, filtered
down to those at which a status-message edit is actually emitted. -/
def emittedUpdates (startTime : ℚ) (ts : List ℚ) : List ℚ :=
  ts.filter (progressEmits startTime)

/-- Speed computation of line 41: `current / elapsed if elapsed > 0 else 0`. -/
def progSpeed (current : ℕ) (elapsed : ℚ) : ℚ :=
  if 0 < elapsed then (current : ℚ) / elapsed else 0

/-- ETA computation of line 42:
`(total - current) / speed if speed > 0 else 0`. -/
def progEta (current total : ℕ) (elapsed : ℚ) : ℚ :=
  if 0 < progSpeed current elapsed then
    ((total : ℚ) - current) / progSpeed current elapsed
  else 0

/-- Outcome of resolving one id inside a batch window (lines 193-203):
the resolution raised (`failed += 1`), the message was empty
(`skipped += 1`), or it had content and a fetch was dispatched. -/
inductive IdOutcome where
  | resolveError
  | empty
  | content
deriving DecidableEq, Repr

/-- Window start indices of the batch loop,
`range(start_id, end_id + 1, batch_size)` (line 190). -/
def windowStarts (startId endId bs : ℕ) : List ℕ :=
  List.range' startId ((endId + 1 - startId + bs - 1) / bs) bs

/-- Message ids of the window starting at `i`,
`range(i, min(i + batch_size, end_id + 1))` (line 191). -/
def windowIds (i endId bs : ℕ) : List ℕ :=
  List.range' i (min (i + bs) (endId + 1) - i)

/-- Number of ids in `ids` with outcome `v`. -/
def countOutcome (oc : ℕ → IdOutcome) (ids : List ℕ) (v : IdOutcome) : ℕ :=
  (ids.filter (fun n => decide (oc n = v))).length

/-- Counters of the batch loop (lines 187-215) for an uncancelled batch:
per window, `failed` counts resolution errors, `skipped` counts empty
messages, and `downloaded` is incremented by the number of dispatched
fetches (`downloaded += len(tasks)`, line 208) once the window's `gather`
returns.  Result is `(downloaded, skipped, failed)`. -/
def batchCounts (oc : ℕ → IdOutcome) (startId endId bs : ℕ) : ℕ × ℕ × ℕ :=
  (windowStarts startId endId bs).foldl
    (fun acc i =>
      let ids := windowIds i endId bs
      (acc.1 + countOutcome oc ids .content,
       acc.2.1 + countOutcome oc ids .empty,
       acc.2.2 + countOutcome oc ids .resolveError))
    (0, 0, 0)

/-- Ids dispatched in the window starting at `i`: those whose message
resolved to non-empty content (line 200). -/
def dispatchedIds (oc : ℕ → IdOutcome) (i endId bs : ℕ) : List ℕ :=
  (windowIds i endId bs).filter (fun n => decide (oc n = .content))

/-- Scheduling events of a batch run: `launch w id` when the controller
creates the fetch task for message `id` in the window starting at `w`
(line 200), `settle w id` when that task settles — returns, raises, or is
cancelled. -/
inductive BEvent where
  | launch (w id : ℕ)
  | settle (w id : ℕ)
deriving DecidableEq, Repr

/-- Window start a scheduling event belongs to. -/
def eventWindow : BEvent → ℕ
  | .launch w _ => w
  | .settle w _ => w

/-- Event trace of a batch run.  The scheduler choice `σ w ids` is the
interleaving of launches and settles produced inside the window starting
at `w` whose dispatched ids are `ids`; `await asyncio.gather(*tasks)`
(line 207) forces every settle of a window into that window's own block,
so the whole trace is the concatenation of the per-window blocks in
window order. -/
def batchTrace (σ : ℕ → List ℕ → List BEvent) (oc : ℕ → IdOutcome)
    (startId endId bs : ℕ) : List BEvent :=
  ((windowStarts startId endId bs).map
    (fun w => σ w (dispatchedIds oc w endId bs))).flatten

/-- A scheduler choice is window-local when every event it produces for a
window belongs to that window: this is what `await asyncio.gather` over
exactly the window's tasks guarantees — no launch or settle of another
window's fetch can occur inside the block, and in particular every settle
of the window happens before the controller moves on. -/
def windowLocal (σ : ℕ → List ℕ → List BEvent) : Prop :=
  ∀ w ids, ∀ e ∈ σ w ids, eventWindow e = w

/-- A scheduler choice is settle-complete when every dispatched fetch of a
window settles inside that window's block — the other half of the
`gather` barrier semantics. -/
def settleComplete (σ : ℕ → List ℕ → List BEvent) : Prop :=
  ∀ w ids, ∀ id ∈ ids, BEvent.settle w id ∈ σ w ids

/-- No pipelining: in the trace, every launch belonging to a later window
occurs strictly after every settle belonging to an earlier window. -/
def noPipelining (tr : List BEvent) : Prop :=
  ∀ (i j : Fin tr.length) (w id w' id' : ℕ),
    tr.get i = .launch w' id' → tr.get j = .settle w id → w < w' → j < i

/-- Canonical scheduler: all launches in dispatch order, then all settles.
Used as a concrete witness of the barrier semantics. -/
def seqScheduler (w : ℕ) (ids : List ℕ) : List BEvent :=
  ids.map (BEvent.launch w) ++ ids.map (BEvent.settle w)

/-- Registry events: `dispatch id` when `track_task` creates and registers
a task (lines 31-32), `settle id` when the task's done-callback fires —
on success, failure, or cancellation (line 33). -/
inductive TaskEvent where
  | dispatch (id : ℕ)
  | settle (id : ℕ)
deriving DecidableEq, Repr

/-- One step of the `RUNNING_TASKS` registry: `add` on dispatch (line 32),
`discard` on settle (line 33) — `discard`, like `Finset.erase`, is a
no-op when the element is absent. -/
def registryStep (s : Finset ℕ) : TaskEvent → Finset ℕ
  | .dispatch id => insert id s
  | .settle id => s.erase id

/-- The `RUNNING_TASKS` registry after a sequence of events, starting from
the empty set (line 28). -/
def runRegistry (events : List TaskEvent) : Finset ℕ :=
  events.foldl registryStep ∅

/-- Every dispatch in the event list is followed, strictly later in the
list, by a settle of the same task: i.e. every dispatched task eventually
settles. -/
def everyDispatchSettles (events : List TaskEvent) : Prop :=
  ∀ id pre post, events = pre ++ TaskEvent.dispatch id :: post →
    TaskEvent.settle id ∈ post

/-- Message with a photo payload and a caption, no other media: the
photo-with-caption test case of the spec. -/
def mPhotoCaption : ChatMessage :=
  { mediaGroupId := none, photo := some 55, video := none, audio := none,
    document := none, otherMedia := false, text := "", caption := "hello" }

/-- Text-only message: no media at all, nonempty text. -/
def mTextOnly : ChatMessage :=
  { mediaGroupId := none, photo := none, video := none, audio := none,
    document := none, otherMedia := false, text := "some text", caption := "" }

/-- Environment in which resolution and download succeed but `send_media`
raises: the Uploading-failure scenario. -/
def envSendFail : FetchEnv :=
  { parse := .ok (7, 42), getMessages := .ok mPhotoCaption,
    guard := fun _ _ => true, premium := false, groupOk := true,
    downloadResult := none, sendResult := some (.other "boom") }

/-- Environment in which the whole media pipeline succeeds. -/
def envAllOk : FetchEnv :=
  { parse := .ok (7, 42), getMessages := .ok mPhotoCaption,
    guard := fun _ _ => true, premium := false, groupOk := true,
    downloadResult := none, sendResult := none }

/-- Environment resolving to the text-only message. -/
def envTextOnly : FetchEnv :=
  { parse := .ok (7, 42), getMessages := .ok mTextOnly,
    guard := fun _ _ => true, premium := false, groupOk := true,
    downloadResult := none, sendResult := none }

/-- Outcome assignment in which every id resolves to content. -/
def ocAllContent : ℕ → IdOutcome := fun _ => IdOutcome.content

/-- Every fetch dispatched in some window of the batch settles somewhere in
the batch trace. -/
def allDispatchedSettle (σ : ℕ → List ℕ → List BEvent) (oc : ℕ → IdOutcome)
    (startId endId bs : ℕ) : Prop :=
  ∀ w ∈ windowStarts startId endId bs, ∀ id ∈ dispatchedIds oc w endId bs,
    BEvent.settle w id ∈ batchTrace σ oc startId endId bs

/-- Helper: the post-size-check trace never contains a size-guard call. -/
theorem sizeGuard_not_in_afterSizeCheck (env : FetchEnv) (m : ChatMessage) :
    Effect.sizeGuardCall ∉ (afterSizeCheck env m).1 := by
  unfold afterSizeCheck
  cases hdr : env.downloadResult <;> cases hsr : env.sendResult <;>
    split_ifs <;> simp_all

/-- Helper: any media type handed to a `send_media` call in the
post-size-check trace is the one computed by the `media_type` chain. -/
theorem send_type_afterSizeCheck (env : FetchEnv) (m : ChatMessage) (t : ContentClass)
    (h : Effect.sendMediaCall t ∈ (afterSizeCheck env m).1) : t = mediaTypeOf m := by
  unfold afterSizeCheck at h
  cases hdr : env.downloadResult <;> cases hsr : env.sendResult <;>
    split_ifs at h <;> simp_all

/-- Helper: any media type handed to a `send_media` call during a whole run
of the fetcher is the one computed by the `media_type` chain. -/
theorem send_type_eq (env : FetchEnv) (m : ChatMessage) (t : ContentClass) (p : Nat × Nat)
    (hp : env.parse = Except.ok p) (hm : env.getMessages = Except.ok m)
    (hmem : Effect.sendMediaCall t ∈ (download_media_from_url env).1) :
    t = mediaTypeOf m := by
  have hB : Effect.sendMediaCall t ∈ (downloadBody env).1 → t = mediaTypeOf m := by
    intro h
    unfold downloadBody at h
    rw [hp, hm] at h
    by_cases hfs : computedFileSize m = 0
    · simp only [hfs, ne_eq, not_true_eq_false, if_false] at h
      exact send_type_afterSizeCheck env m t h
    · by_cases hgd : env.guard (computedFileSize m) env.premium
      · simp only [hfs, ne_eq, not_false_eq_true, if_true, hgd] at h
        rcases List.mem_cons.1 h with heq | h'
        · exact absurd heq (by simp)
        · exact send_type_afterSizeCheck env m t h'
      · simp [hfs, hgd] at h
  rcases hb : downloadBody env with ⟨tr, e?⟩
  have htr : Effect.sendMediaCall t ∈ tr → t = mediaTypeOf m := by
    intro h; exact hB (by rw [hb]; exact h)
  rcases e? with _ | e
  · rw [download_media_from_url, hb] at hmem
    exact htr hmem
  · rcases e <;> rw [download_media_from_url, hb] at hmem <;>
      rcases List.mem_append.1 hmem with h | h <;> first | exact htr h | simp_all

/-- Helper: with a computed file size of 0, the fetcher proceeds straight
past the size check, never consults the guard, and is insensitive to both
the guard policy and the privilege flag. -/
theorem guard_free_of_zero_size (env : FetchEnv) (m : ChatMessage) (p : Nat × Nat)
    (hp : env.parse = Except.ok p) (hm : env.getMessages = Except.ok m)
    (hfs : computedFileSize m = 0) :
    downloadBody env = afterSizeCheck env m ∧
    Effect.sizeGuardCall ∉ (download_media_from_url env).1 ∧
    ∀ g' pr', download_media_from_url { env with guard := g', premium := pr' } =
      download_media_from_url env := by
  have hbody : downloadBody env = afterSizeCheck env m := by
    unfold downloadBody
    rw [hp, hm]
    simp [hfs]
  refine ⟨hbody, ?_, ?_⟩
  · have hno := sizeGuard_not_in_afterSizeCheck env m
    rcases hA : afterSizeCheck env m with ⟨tr, e?⟩
    rw [hA] at hno hbody
    rcases e? with _ | e
    · rw [download_media_from_url, hbody]
      exact hno
    · rcases e <;> rw [download_media_from_url, hbody] <;>
        simp_all
  · intro g' pr'
    have hbody' : downloadBody { env with guard := g', premium := pr' } =
        afterSizeCheck env m := by
      unfold downloadBody
      simp only [hp, hm]
      simp [hfs]
      rfl
    rw [download_media_from_url, download_media_from_url, hbody, hbody']

/-- Helper: full trace of a successful-resolution run on a plain media
message (no group), with the size check passed or skipped and the
download succeeding; the tail of the trace is decided by the outcome of
`send_media`. -/
theorem download_eq_of_media (env : FetchEnv) (m : ChatMessage) (p : Nat × Nat)
    (hp : env.parse = Except.ok p) (hm : env.getMessages = Except.ok m)
    (hg : m.mediaGroupId = none) (hmed : m.media = true)
    (hsz : computedFileSize m = 0 ∨ env.guard (computedFileSize m) env.premium = true)
    (hdl : env.downloadResult = none) :
    (download_media_from_url env).1 =
      (if computedFileSize m ≠ 0 then [Effect.sizeGuardCall] else []) ++
      [Effect.progressReply, Effect.downloadCall, Effect.sendMediaCall (mediaTypeOf m)] ++
      (match env.sendResult with
       | none => [Effect.cleanupDownload, Effect.deleteProgress]
       | some Exc.peerIdInvalid => [Effect.replyAccess]
       | some Exc.badRequest => [Effect.replyAccess]
       | some (Exc.other _) => [Effect.replyError]) := by
  have hafter : afterSizeCheck env m =
      (match env.sendResult with
       | none => ([Effect.progressReply, Effect.downloadCall,
           Effect.sendMediaCall (mediaTypeOf m), Effect.cleanupDownload,
           Effect.deleteProgress], (none : Option Exc))
       | some e => ([Effect.progressReply, Effect.downloadCall,
           Effect.sendMediaCall (mediaTypeOf m)], some e)) := by
    unfold afterSizeCheck
    rw [hg, hdl]
    cases env.sendResult <;> simp [hmed]
  by_cases hfs : computedFileSize m = 0
  · have hbody : downloadBody env = afterSizeCheck env m := by
      unfold downloadBody
      rw [hp, hm]
      simp [hfs]
    rw [download_media_from_url, hbody, hafter]
    cases hsr : env.sendResult with
    | none => simp [hfs]
    | some e => cases e <;> simp [hfs]
  · have hguard : env.guard (computedFileSize m) env.premium = true :=
      hsz.resolve_left hfs
    have hbody : downloadBody env =
        (Effect.sizeGuardCall :: (afterSizeCheck env m).1, (afterSizeCheck env m).2) := by
      unfold downloadBody
      rw [hp, hm]
      simp [hfs, hguard]
    rw [download_media_from_url, hbody, hafter]
    cases hsr : env.sendResult with
    | none => simp [hfs]
    | some e => cases e <;> simp [hfs]

/-- C5: content classification is total and deterministic (it is a function
on `ChatMessage`), and follows the priority order grouped-media first,
then photo > video > audio > document among binary media, then
text/caption, else empty; moreover every `send_media` call of a fetch on
message `m` is tagged with the `media_type` chain's result, which is
`photo` whenever a photo is present — so a message with both photo and
caption is classified and sent as a photo. -/
theorem classify_priority_order (m : ChatMessage) :
    (m.mediaGroupId.isSome → classify m = ContentClass.groupedMedia)
  ∧ (m.mediaGroupId = none → m.photo.isSome → classify m = ContentClass.photo)
  ∧ (m.mediaGroupId = none → m.photo = none → m.video.isSome →
      classify m = ContentClass.video)
  ∧ (m.mediaGroupId = none → m.photo = none → m.video = none → m.audio.isSome →
      classify m = ContentClass.audio)
  ∧ (m.mediaGroupId = none → m.photo = none → m.video = none → m.audio = none →
      m.media = true → classify m = ContentClass.document)
  ∧ (m.mediaGroupId = none → m.media = false → (m.text ≠ "" ∨ m.caption ≠ "") →
      classify m = ContentClass.textOnly)
  ∧ (m.mediaGroupId = none → m.media = false → m.text = "" → m.caption = "" →
      classify m = ContentClass.empty)
  ∧ (∀ env t p, env.parse = Except.ok p → env.getMessages = Except.ok m →
      Effect.sendMediaCall t ∈ (download_media_from_url env).1 → t = mediaTypeOf m)
  ∧ (m.photo.isSome → mediaTypeOf m = ContentClass.photo) := by
  refine ⟨?_, ?_, ?_, ?_, ?_, ?_, ?_, ?_, ?_⟩
  · intro h; simp [classify, h]
  · intro h1 h2; simp [classify, mediaTypeOf, ChatMessage.media, h1, h2]
  · intro h1 h2 h3; simp [classify, mediaTypeOf, ChatMessage.media, h1, h2, h3]
  · intro h1 h2 h3 h4; simp [classify, mediaTypeOf, ChatMessage.media, h1, h2, h3, h4]
  · intro h1 h2 h3 h4 h5; simp [classify, mediaTypeOf, h1, h2, h3, h4, h5]
  · intro h1 h2 h3
    rcases h3 with h3 | h3 <;> simp [classify, h1, h2, h3]
  · intro h1 h2 h3 h4; simp [classify, h1, h2, h3, h4]
  · intro env t p hp hm hmem; exact send_type_eq env m t p hp hm hmem
  · intro h; simp [mediaTypeOf, h]

/-- Witness for C5 at the photo-with-caption message: it is classified as
a photo, and the media type sent on a successful run is also photo. -/
theorem classify_priority_order_witness :
    classify mPhotoCaption = ContentClass.photo ∧
    ContentClass.photo = mediaTypeOf mPhotoCaption :=
  ⟨(classify_priority_order mPhotoCaption).2.1 rfl rfl,
   (classify_priority_order mPhotoCaption).2.2.2.2.2.2.2.1 envAllOk ContentClass.photo
     (7, 42) rfl rfl (by decide)⟩

/-- C6: when the computed file size is 0 (unknown/not applicable), the size
guard is never consulted and the fetch proceeds: the body continues as if
no size check existed, no guard call appears in the trace, and the run is
unchanged under any replacement of the guard policy. -/
theorem size_guard_skipped_on_zero (env : FetchEnv) (m : ChatMessage) (p : Nat × Nat)
    (hp : env.parse = Except.ok p) (hm : env.getMessages = Except.ok m)
    (hfs : computedFileSize m = 0) :
    downloadBody env = afterSizeCheck env m ∧
    Effect.sizeGuardCall ∉ (download_media_from_url env).1 ∧
    ∀ g', download_media_from_url { env with guard := g' } = download_media_from_url env := by
  obtain ⟨h1, h2, h3⟩ := guard_free_of_zero_size env m p hp hm hfs
  exact ⟨h1, h2, fun g' => h3 g' env.premium⟩

/-- Witness for C6 at the text-only message: the guard is never consulted
and replacing the guard with the always-reject policy changes nothing. -/
theorem size_guard_skipped_on_zero_witness :
    Effect.sizeGuardCall ∉ (download_media_from_url envTextOnly).1 ∧
    download_media_from_url { envTextOnly with guard := fun _ _ => false } =
      download_media_from_url envTextOnly :=
  ⟨(size_guard_skipped_on_zero envTextOnly mTextOnly (7, 42) rfl rfl rfl).2.1,
   (size_guard_skipped_on_zero envTextOnly mTextOnly (7, 42) rfl rfl rfl).2.2
     (fun _ _ => false)⟩

/-- C10: a message whose media is a photo (no document, video or audio
payload) keeps a computed file size of 0, so the size guard is never
invoked and the download proceeds whatever the photo's actual byte size,
the guard policy and the privilege flag. -/
theorem photo_bypasses_size_guard (env : FetchEnv) (m : ChatMessage) (p : Nat × Nat)
    (sz : Nat) (hp : env.parse = Except.ok p) (hm : env.getMessages = Except.ok m)
    (hph : m.photo = some sz) (hdoc : m.document = none)
    (hvid : m.video = none) (haud : m.audio = none) :
    computedFileSize m = 0 ∧
    downloadBody env = afterSizeCheck env m ∧
    Effect.sizeGuardCall ∉ (download_media_from_url env).1 ∧
    ∀ g' pr', download_media_from_url { env with guard := g', premium := pr' } =
      download_media_from_url env := by
  have hfs : computedFileSize m = 0 := by
    simp [computedFileSize, hdoc, hvid, haud]
  obtain ⟨h1, h2, h3⟩ := guard_free_of_zero_size env m p hp hm hfs
  exact ⟨hfs, h1, h2, h3⟩

/-- Witness for C10 at the photo-with-caption message (photo of 55 bytes):
size 0, no guard call, and the run is unchanged under an always-reject
guard with a non-premium flag. -/
theorem photo_bypasses_size_guard_witness :
    computedFileSize mPhotoCaption = 0 ∧
    Effect.sizeGuardCall ∉ (download_media_from_url envAllOk).1 ∧
    download_media_from_url { envAllOk with guard := fun _ _ => false, premium := false } =
      download_media_from_url envAllOk :=
  ⟨(photo_bypasses_size_guard envAllOk mPhotoCaption (7, 42) 55 rfl rfl rfl rfl rfl rfl).1,
   (photo_bypasses_size_guard envAllOk mPhotoCaption (7, 42) 55 rfl rfl rfl rfl rfl rfl).2.2.1,
   (photo_bypasses_size_guard envAllOk mPhotoCaption (7, 42) 55 rfl rfl rfl rfl rfl rfl).2.2.2
     (fun _ _ => false) false⟩

/-- C7: the fetcher never lets an exception escape to its caller: whatever
the outcomes of the external calls, the run returns normally, and when
the body raised, the run's trace contains the corresponding short reply
(the access hint for `PeerIdInvalid`/`BadRequest`, the error reply
otherwise). -/
theorem fetcher_never_raises (env : FetchEnv) :
    (download_media_from_url env).2 = none ∧
    ∀ e, (downloadBody env).2 = some e →
      Effect.replyAccess ∈ (download_media_from_url env).1 ∨
      Effect.replyError ∈ (download_media_from_url env).1 := by
  rcases hb : downloadBody env with ⟨tr, e?⟩
  rcases e? with _ | e
  · simp [download_media_from_url, hb]
  · rcases e <;> simp [download_media_from_url, hb]

/-- Witness for C7 at the Uploading-failure environment: the run returns
normally and the trace carries one of the two reply effects. -/
theorem fetcher_never_raises_witness :
    (download_media_from_url envSendFail).2 = none ∧
    (Effect.replyAccess ∈ (download_media_from_url envSendFail).1 ∨
     Effect.replyError ∈ (download_media_from_url envSendFail).1) :=
  ⟨(fetcher_never_raises envSendFail).1,
   (fetcher_never_raises envSendFail).2 (Exc.other "boom") (by decide)⟩

/-- C1 counterexample: in the Uploading-failure environment the fetch does
enter Downloading (the download call is in the trace) and `send_media`
is reached, yet neither `cleanup_download` nor the progress-message
deletion ever runs — the downloaded artifact is left on disk, refuting
the claim that cleanup is unconditional. -/
theorem cleanup_skipped_on_send_failure :
    Effect.downloadCall ∈ (download_media_from_url envSendFail).1 ∧
    Effect.sendMediaCall (mediaTypeOf mPhotoCaption) ∈ (download_media_from_url envSendFail).1 ∧
    Effect.cleanupDownload ∉ (download_media_from_url envSendFail).1 ∧
    Effect.deleteProgress ∉ (download_media_from_url envSendFail).1 := by
  decide

/-- C1 amended: on a media message whose download succeeds, the local
artifact deletion and the progress-message removal run exactly when
`send_media` returns without raising; when Uploading raises, both are
skipped (the downloaded file is left behind) and the failure is converted
into a reply. -/
theorem cleanup_only_on_upload_success (env : FetchEnv) (m : ChatMessage) (p : Nat × Nat)
    (hp : env.parse = Except.ok p) (hm : env.getMessages = Except.ok m)
    (hg : m.mediaGroupId = none) (hmed : m.media = true)
    (hsz : computedFileSize m = 0 ∨ env.guard (computedFileSize m) env.premium = true)
    (hdl : env.downloadResult = none) :
    (env.sendResult = none →
      Effect.cleanupDownload ∈ (download_media_from_url env).1 ∧
      Effect.deleteProgress ∈ (download_media_from_url env).1) ∧
    (∀ e, env.sendResult = some e →
      Effect.cleanupDownload ∉ (download_media_from_url env).1 ∧
      Effect.deleteProgress ∉ (download_media_from_url env).1 ∧
      (Effect.replyAccess ∈ (download_media_from_url env).1 ∨
       Effect.replyError ∈ (download_media_from_url env).1)) := by
  have htr := download_eq_of_media env m p hp hm hg hmed hsz hdl
  constructor
  · intro hsr
    rw [htr, hsr]
    by_cases hfs : computedFileSize m = 0 <;> simp [hfs]
  · intro e hsr
    rw [htr, hsr]
    rcases e <;> by_cases hfs : computedFileSize m = 0 <;> simp [hfs]

/-- Witness for C1 amended, applied on the success environment and on the
Uploading-failure environment. -/
theorem cleanup_only_on_upload_success_witness :
    (Effect.cleanupDownload ∈ (download_media_from_url envAllOk).1 ∧
     Effect.deleteProgress ∈ (download_media_from_url envAllOk).1) ∧
    (Effect.cleanupDownload ∉ (download_media_from_url envSendFail).1 ∧
     Effect.deleteProgress ∉ (download_media_from_url envSendFail).1 ∧
     (Effect.replyAccess ∈ (download_media_from_url envSendFail).1 ∨
      Effect.replyError ∈ (download_media_from_url envSendFail).1)) :=
  ⟨(cleanup_only_on_upload_success envAllOk mPhotoCaption (7, 42) rfl rfl rfl rfl
      (Or.inl rfl) rfl).1 rfl,
   (cleanup_only_on_upload_success envSendFail mPhotoCaption (7, 42) rfl rfl rfl rfl
      (Or.inl rfl) rfl).2 (Exc.other "boom") rfl⟩

/-- C2 (code bug): the throttle compares against the fixed transfer start
time only, so two callback invocations at 10 s and 11 s after the start
both emit a status edit although they are only 1 s apart — the code's own
comment says updates should come every 10 seconds. -/
theorem progress_throttle_violation :
    emittedUpdates 0 [10, 11] = [10, 11] ∧ ((11 : ℚ) - 10 < 10) := by
  constructor
  · norm_num [emittedUpdates, progressEmits, List.filter]
  · norm_num

/-- C9 counterexample: at an emitted update with zero bytes transferred
(elapsed 10 s, so the update is emitted), the computed speed is zero and
the code assigns the ETA the finite value 0 — it is not treated as
unbounded or undefined. -/
theorem eta_zero_when_speed_zero :
    progressEmits 0 10 = true ∧ progSpeed 0 10 = 0 ∧ progEta 0 100 10 = 0 := by
  refine ⟨by norm_num [progressEmits], ?_, ?_⟩ <;> norm_num [progSpeed, progEta]

/-- C9 amended: the estimated time remaining equals
(total − transferred) / speed whenever the computed speed is positive,
and is set to the finite value 0 whenever the computed speed is zero. -/
theorem eta_formula (current total : Nat) (elapsed : ℚ) :
    (0 < progSpeed current elapsed →
      progEta current total elapsed =
        ((total : ℚ) - current) / progSpeed current elapsed) ∧
    (progSpeed current elapsed = 0 → progEta current total elapsed = 0) := by
  constructor
  · intro h
    simp [progEta, h]
  · intro h
    simp [progEta, h]

/-- Witness for C9 amended at 50 of 100 bytes after 10 s: speed is
positive and the ETA equals (100 − 50) / speed. -/
theorem eta_formula_witness :
    (0 < progSpeed 50 100 ∧
      progEta 50 100 100 = ((100 : ℚ) - 50) / progSpeed 50 100) ∧
    (progSpeed 0 10 = 0 → progEta 0 100 10 = 0) :=
  ⟨⟨by norm_num [progSpeed], (eta_formula 50 100 100).1 (by norm_num [progSpeed])⟩,
   (eta_formula 0 100 10).2⟩

/-- Helper: over any id list, the content, empty and resolve-error counts
partition the list. -/
theorem countOutcome_sum (oc : Nat → IdOutcome) (l : List Nat) :
    countOutcome oc l IdOutcome.content + countOutcome oc l IdOutcome.empty +
      countOutcome oc l IdOutcome.resolveError = l.length := by
  induction l with
  | nil => simp [countOutcome]
  | cons a l ih =>
    cases h : oc a <;>
      simp [countOutcome, List.filter_cons, h] at ih ⊢ <;> omega

/-- C3: for the inclusive range [100, 104] with window size 10, the batch
controller processes exactly one window, and for every assignment of
per-id outcomes the reported counts satisfy
downloaded + skipped + failed = 5 (no cancellation is modelled). -/
theorem batch_range_100_104_counts (oc : Nat → IdOutcome) :
    (windowStarts 100 104 10).length = 1 ∧
    (batchCounts oc 100 104 10).1 + (batchCounts oc 100 104 10).2.1 +
      (batchCounts oc 100 104 10).2.2 = 5 := by
  constructor
  · decide
  · have hws : windowStarts 100 104 10 = [100] := by decide
    have hids : windowIds 100 104 10 = [100, 101, 102, 103, 104] := by decide
    have h5 : (windowIds 100 104 10).length = 5 := by rw [hids]; rfl
    have := countOutcome_sum oc (windowIds 100 104 10)
    simp only [batchCounts, hws, List.foldl_cons, List.foldl_nil, Nat.zero_add]
    omega

/-- Helper: generalised registry emptiness.  If every dispatch in the
remaining events is settled later, and every task currently in the
registry still has a settle event ahead, the registry ends empty. -/
theorem runRegistry_aux (events : List TaskEvent) :
    ∀ s : Finset Nat,
      (∀ id pre post, events = pre ++ TaskEvent.dispatch id :: post →
        TaskEvent.settle id ∈ post) →
      (∀ x ∈ s, TaskEvent.settle x ∈ events) →
      events.foldl registryStep s = ∅ := by
  induction events with
  | nil =>
    intro s _ hs
    simp only [List.foldl_nil]
    ext x
    simp only [Finset.not_mem_empty, iff_false]
    intro hx
    exact absurd (hs x hx) (by simp)
  | cons e rest ih =>
    intro s h hs
    simp only [List.foldl_cons]
    apply ih
    · intro id pre post hsplit
      exact h id (e :: pre) post (by rw [hsplit]; rfl)
    · intro x hx
      cases e with
      | dispatch id =>
        simp only [registryStep] at hx
        rcases Finset.mem_insert.1 hx with rfl | hx'
        · exact h x [] rest rfl
        · have hm := hs x hx'
          simp only [List.mem_cons] at hm
          rcases hm with heq | hm
          · exact absurd heq (by simp)
          · exact hm
      | settle id =>
        simp only [registryStep] at hx
        have hxne := Finset.ne_of_mem_erase hx
        have hm := hs x (Finset.mem_of_mem_erase hx)
        simp only [List.mem_cons] at hm
        rcases hm with heq | hm
        · rcases heq with heq
          exact absurd (by injection heq) hxne
        · exact hm

/-- C8: the registry invariant of `track_task` — each dispatch inserts the
task and each settle (success, failure or cancellation all fire the done
callback) discards it — implies that once every dispatched fetch has
settled, `RUNNING_TASKS` is empty. -/
theorem registry_empty_after_settle (events : List TaskEvent)
    (h : everyDispatchSettles events) : runRegistry events = ∅ :=
  runRegistry_aux events ∅ h (by simp)

/-- Helper: in the two-event history dispatch 0 then settle 0, every
dispatch is settled later. -/
theorem everyDispatchSettles_example :
    everyDispatchSettles [TaskEvent.dispatch 0, TaskEvent.settle 0] := by
  intro id pre post h
  match pre, h with
  | [], h =>
    rcases List.cons.injEq .. ▸ h with ⟨h1, h2⟩
    cases h1
    rw [← h2]
    simp
  | [a], h =>
    rcases List.cons.injEq .. ▸ h with ⟨h1, h2⟩
    rcases List.cons.injEq .. ▸ h2 with ⟨h3, h4⟩
    exact absurd h3 (by simp)
  | a :: b :: pre', h =>
    rcases List.cons.injEq .. ▸ h with ⟨h1, h2⟩
    rcases List.cons.injEq .. ▸ h2 with ⟨h3, h4⟩
    exact absurd h4 (by simp)

/-- Witness for C8: a dispatch followed by its settle leaves the registry
empty. -/
theorem registry_empty_after_settle_witness :
    runRegistry [TaskEvent.dispatch 0, TaskEvent.settle 0] = ∅ :=
  registry_empty_after_settle _ everyDispatchSettles_example

/-- C4: for any scheduler respecting the `gather` barrier semantics (each
window's block holds only its own window's events and all of its settles),
the batch trace never contains a launch of a later window before a settle
of an earlier window — windows are processed strictly sequentially — and
every dispatched fetch settles inside the trace. -/
theorem batch_windows_sequential (σ : Nat → List Nat → List BEvent)
    (oc : Nat → IdOutcome) (startId endId bs : Nat) (hbs : 0 < bs)
    (hloc : windowLocal σ) (hset : settleComplete σ) :
    noPipelining (batchTrace σ oc startId endId bs) ∧
    allDispatchedSettle σ oc startId endId bs := by
  constructor
  · have hpw : (batchTrace σ oc startId endId bs).Pairwise
        (fun a b => eventWindow a ≤ eventWindow b) := by
      unfold batchTrace
      rw [List.pairwise_flatten]
      constructor
      · intro l hl
        rcases List.mem_map.1 hl with ⟨w, _, rfl⟩
        refine List.pairwise_of_forall_mem_list ?_
        intro a ha b hb
        rw [hloc w _ a ha, hloc w _ b hb]
      · rw [List.pairwise_map]
        have hlt : (windowStarts startId endId bs).Pairwise (· < ·) := by
          unfold windowStarts
          exact List.pairwise_lt_range' _ _ _ hbs
        refine hlt.imp ?_
        intro w1 w2 h12 x hx y hy
        rw [hloc w1 _ x hx, hloc w2 _ y hy]
        exact le_of_lt h12
    intro i j w id w' id' hi hj hww
    by_contra hji
    push_neg at hji
    rcases eq_or_lt_of_le hji with heq | hlt
    · rw [heq] at hi
      exact BEvent.noConfusion (hi.symm.trans hj)
    · have hle := List.pairwise_iff_get.1 hpw i j hlt
      rw [hi, hj] at hle
      simp only [eventWindow] at hle
      omega
  · intro w hw id hid
    unfold batchTrace
    rw [List.mem_flatten]
    exact ⟨σ w (dispatchedIds oc w endId bs),
      List.mem_map.2 ⟨w, hw, rfl⟩, hset w _ id hid⟩

/-- Helper: the canonical launches-then-settles scheduler only emits its
own window's events. -/
theorem seqScheduler_windowLocal : windowLocal seqScheduler := by
  intro w ids e he
  rcases List.mem_append.1 he with h | h <;>
    rcases List.mem_map.1 h with ⟨id, _, rfl⟩ <;> rfl

/-- Helper: the canonical scheduler settles every dispatched id inside the
window's block. -/
theorem seqScheduler_settleComplete : settleComplete seqScheduler := by
  intro w ids id hid
  exact List.mem_append.2 (Or.inr (List.mem_map.2 ⟨id, hid, rfl⟩))

/-- Witness for C4 on the range [100, 104] with window size 10 under the
canonical barrier-respecting scheduler. -/
theorem batch_windows_sequential_witness :
    noPipelining (batchTrace seqScheduler ocAllContent 100 104 10) ∧
    allDispatchedSettle seqScheduler ocAllContent 100 104 10 :=
  batch_windows_sequential seqScheduler ocAllContent 100 104 10 (by decide)
    seqScheduler_windowLocal seqScheduler_settleComplete
